import Mathlib

/-!
Verification development for the AI-powered content-search pipeline
(`src/ai_search.py`, `src/wordpress_client.py`, `src/config.py`).

The Python code is shallowly embedded:
* dynamically-typed Python values (parsed JSON bodies, tool arguments,
  record fields) become the inductive `JValue`;
* Python exceptions become explicit `Except PyErr` results, with one
  constructor per exception class that the code distinguishes in its
  `except` clauses;
* every outbound HTTP call becomes a query to an oracle bundled in
  `World` (a `requests` transport failure, a non-2xx status from
  `raise_for_status`, and an undecodable body — all of which surface as
  `requests.RequestException` to the callers — are folded into the
  oracle's `.error` case);
* wall-clock time for the rate limiter becomes an explicit clock field
  advanced by `time.sleep`.

Each embedded function keeps the name of the Python function it models.
-/

namespace WPAI

/-- Model of a decoded JSON / dynamically-typed Python value.  JSON floats
are not modelled (no claim involves them); numbers are integers. -/
inductive JValue where
  | null
  | bool (b : Bool)
  | num (n : Int)
  | str (s : String)
  | arr (elems : List JValue)
  | obj (fields : List (String × JValue))

/-- Python exceptions the source distinguishes in its `except` clauses.
`aiError` is `AIError`, `wpError` is `WordPressAPIError`; the remaining
constructors are the built-in exceptions that dynamic operations raise. -/
inductive PyErr where
  | aiError (msg : String)
  | wpError (msg : String)
  | keyError
  | indexError
  | typeError
  | attrError
  | jsonDecodeError
deriving DecidableEq, Repr

/-- Python `d.get(k, default)`: only mappings have `.get`; every other
value raises `AttributeError`. -/
def pyDictGet (v : JValue) (k : String) (default : JValue) : Except PyErr JValue :=
  match v with
  | .obj fs => .ok ((fs.lookup k).getD default)
  | _ => .error .attrError

/-- Python `v[k]` with a string key: mappings look the key up
(`KeyError` when absent); subscripting any other value with a string
raises `TypeError`. -/
def pyIndexStr (v : JValue) (k : String) : Except PyErr JValue :=
  match v with
  | .obj fs =>
    match fs.lookup k with
    | some x => .ok x
    | none => .error .keyError
  | _ => .error .typeError

/-- Python `v[i]` with a non-negative integer index: sequences index
(`IndexError` when out of range), strings yield a one-character string,
mappings raise `KeyError` (JSON object keys are strings, so an integer
key is never present), everything else raises `TypeError`. -/
def pyIndexNat (v : JValue) (i : Nat) : Except PyErr JValue :=
  match v with
  | .arr xs =>
    match xs.get? i with
    | some x => .ok x
    | none => .error .indexError
  | .str s =>
    match s.toList.get? i with
    | some c => .ok (.str (String.singleton c))
    | none => .error .indexError
  | .obj _ => .error .keyError
  | _ => .error .typeError

/-- Membership test for a string needle: `k in hay` for Python strings. -/
def strContainsSub (hay needle : String) : Bool :=
  (hay.toList.tails).any (fun t => needle.toList.isPrefixOf t)

/-- Python `k in v` for a string `k`: key membership for mappings,
substring test for strings, element membership for sequences;
`TypeError` for non-containers. -/
def pyContains (v : JValue) (k : String) : Except PyErr Bool :=
  match v with
  | .obj fs => .ok (fs.any (fun p => p.1 == k))
  | .str s => .ok (strContainsSub s k)
  | .arr xs =>
    .ok (xs.any (fun x =>
      match x with
      | .str s => s == k
      | _ => false))
  | _ => .error .typeError

/-- Python iteration `for x in v`: lists yield their elements, mappings
their keys, strings their characters; other values raise `TypeError`. -/
def pyIterate (v : JValue) : Except PyErr (List JValue) :=
  match v with
  | .arr xs => .ok xs
  | .obj fs => .ok (fs.map (fun p => JValue.str p.1))
  | .str s => .ok (s.toList.map (fun c => JValue.str (String.singleton c)))
  | _ => .error .typeError

/-- The integer value of a Python object where the source uses one as an
int (`min`, slicing): ints are themselves, bools coerce (True = 1). -/
def pyAsInt : JValue → Option Int
  | .num n => some n
  | .bool b => some (if b then 1 else 0)
  | _ => none

/-- Python list slicing `xs[:n]` for an integer `n`: a non-negative bound
takes a prefix, a negative bound drops `|n|` trailing elements. -/
def pySlice (xs : List α) (n : Int) : List α :=
  if 0 ≤ n then xs.take n.toNat else xs.take (xs.length - n.natAbs)

/-- Key lookup on a JSON object, `none` for any non-object. -/
def jlookup (v : JValue) (k : String) : Option JValue :=
  match v with
  | .obj fs => fs.lookup k
  | _ => none

/-- Left-to-right effectful map: the list-comprehension semantics of
`[f(x) for x in xs]` where `f` may raise (first failure propagates). -/
def mapExcept (f : α → Except PyErr β) : List α → Except PyErr (List β)
  | [] => .ok []
  | x :: rest =>
    match f x with
    | .error e => .error e
    | .ok y =>
      match mapExcept f rest with
      | .error e => .error e
      | .ok ys => .ok (y :: ys)

/-! JSON parsing: model of `json.loads` on a string argument.  The grammar
covers objects, arrays, strings (with the common escapes), integers,
booleans and null; JSON floats are outside the model (see `JValue`). -/

/-- Skip JSON whitespace. -/
def skipWs : List Char → List Char
  | c :: rest =>
    if c = ' ' ∨ c = '\n' ∨ c = '\t' ∨ c = '\r' then skipWs rest else c :: rest
  | [] => []

/-- Decode one string-literal escape character. -/
def escChar (c : Char) : Option Char :=
  if c = '"' ∨ c = '\\' ∨ c = '/' then some c
  else if c = 'n' then some '\n'
  else if c = 't' then some '\t'
  else if c = 'r' then some '\r'
  else none

/-- Parse the body of a string literal up to its closing quote. -/
def parseStrChars : List Char → Option (List Char × List Char)
  | [] => none
  | '"' :: rest => some ([], rest)
  | '\\' :: e :: rest =>
    match escChar e with
    | some c => (parseStrChars rest).map (fun p => (c :: p.1, p.2))
    | none => none
  | c :: rest => (parseStrChars rest).map (fun p => (c :: p.1, p.2))

/-- Consume a digit run, accumulating its value. -/
def digitsAcc (acc : Nat) : List Char → Nat × List Char
  | c :: rest =>
    if c.isDigit then digitsAcc (acc * 10 + (c.toNat - '0'.toNat)) rest
    else (acc, c :: rest)
  | [] => (acc, [])

/-- Parse a non-empty digit run into a natural number. -/
def parseDigits : List Char → Option (Nat × List Char)
  | c :: rest =>
    if c.isDigit then some (digitsAcc (c.toNat - '0'.toNat) rest) else none
  | [] => none

mutual

/-- Recursive-descent JSON value parser (fuel-indexed). -/
def parseJValue : Nat → List Char → Option (JValue × List Char)
  | 0, _ => none
  | fuel + 1, input =>
    match skipWs input with
    | 'n' :: 'u' :: 'l' :: 'l' :: rest => some (.null, rest)
    | 't' :: 'r' :: 'u' :: 'e' :: rest => some (.bool true, rest)
    | 'f' :: 'a' :: 'l' :: 's' :: 'e' :: rest => some (.bool false, rest)
    | '"' :: rest => (parseStrChars rest).map (fun p => (.str (String.mk p.1), p.2))
    | '[' :: rest => parseArrayItems fuel (skipWs rest)
    | '\x7b' :: rest => parseObjItems fuel (skipWs rest)
    | '-' :: rest => (parseDigits rest).map (fun p => (.num (-(p.1 : Int)), p.2))
    | c :: rest =>
      if c.isDigit then (parseDigits (c :: rest)).map (fun p => (.num (p.1 : Int), p.2))
      else none
    | [] => none

/-- Parse array elements after the opening bracket (whitespace skipped). -/
def parseArrayItems : Nat → List Char → Option (JValue × List Char)
  | 0, _ => none
  | fuel + 1, input =>
    match input with
    | ']' :: rest => some (.arr [], rest)
    | _ =>
      match parseJValue fuel input with
      | some (v, rest) =>
        match parseArrayRest fuel rest with
        | some (vs, rem) => some (.arr (v :: vs), rem)
        | none => none
      | none => none

/-- Parse `, value`* `]` after one array element. -/
def parseArrayRest : Nat → List Char → Option (List JValue × List Char)
  | 0, _ => none
  | fuel + 1, input =>
    match skipWs input with
    | ']' :: rest => some ([], rest)
    | ',' :: rest =>
      match parseJValue fuel rest with
      | some (v, rem) =>
        match parseArrayRest fuel rem with
        | some (vs, rem2) => some (v :: vs, rem2)
        | none => none
      | none => none
    | _ => none

/-- Parse object members after the opening brace (whitespace skipped). -/
def parseObjItems : Nat → List Char → Option (JValue × List Char)
  | 0, _ => none
  | fuel + 1, input =>
    match input with
    | '\x7d' :: rest => some (.obj [], rest)
    | _ =>
      match parseObjMember fuel input with
      | some (kv, rest) =>
        match parseObjRest fuel rest with
        | some (kvs, rem) => some (.obj (kv :: kvs), rem)
        | none => none
      | none => none

/-- Parse one `"key" : value` member. -/
def parseObjMember : Nat → List Char → Option ((String × JValue) × List Char)
  | 0, _ => none
  | fuel + 1, input =>
    match skipWs input with
    | '"' :: rest =>
      match parseStrChars rest with
      | some (kcs, rest2) =>
        match skipWs rest2 with
        | ':' :: rest3 =>
          match parseJValue fuel rest3 with
          | some (v, rem) => some ((String.mk kcs, v), rem)
          | none => none
        | _ => none
      | none => none
    | _ => none

/-- Parse `, member`* `}` after one object member. -/
def parseObjRest : Nat → List Char → Option (List (String × JValue) × List Char)
  | 0, _ => none
  | fuel + 1, input =>
    match skipWs input with
    | '\x7d' :: rest => some ([], rest)
    | ',' :: rest =>
      match parseObjMember fuel rest with
      | some (kv, rem) =>
        match parseObjRest fuel rem with
        | some (kvs, rem2) => some (kv :: kvs, rem2)
        | none => none
      | none => none
    | _ => none

end

/-- Model of `json.loads(v)`: only strings are decodable (any other
argument raises `TypeError`); a string that is not a single JSON document
raises `json.JSONDecodeError`. -/
def json_loads (v : JValue) : Except PyErr JValue :=
  match v with
  | .str s =>
    match parseJValue (s.length + 1) s.toList with
    | some (val, rest) =>
      if skipWs rest = [] then .ok val else .error .jsonDecodeError
    | none => .error .jsonDecodeError
  | _ => .error .typeError

/-! Python string rendering, used when the source interpolates record
fields into f-strings.  `pyRepr` follows `repr` (strings quoted) and
`pyStr` follows `str`; quote-escaping inside `repr` of strings is not
modelled (no claim depends on the rendered text). -/

mutual

/-- Python `repr` of a decoded JSON value. -/
def pyRepr : JValue → String
  | .null => "None"
  | .bool b => if b then "True" else "False"
  | .num n => toString n
  | .str s => "\x27" ++ s ++ "\x27"
  | .arr xs => "[" ++ pyReprList xs ++ "]"
  | .obj fs => "\x7b" ++ pyReprFields fs ++ "\x7d"

/-- Comma-separated `repr` of list elements. -/
def pyReprList : List JValue → String
  | [] => ""
  | [x] => pyRepr x
  | x :: rest => pyRepr x ++ ", " ++ pyReprList rest

/-- Comma-separated `repr` of dict members. -/
def pyReprFields : List (String × JValue) → String
  | [] => ""
  | [(k, v)] => "\x27" ++ k ++ "\x27: " ++ pyRepr v
  | (k, v) :: rest => "\x27" ++ k ++ "\x27: " ++ pyRepr v ++ ", " ++ pyReprFields rest

end

/-- Python `str` of a decoded JSON value (bare for strings, `repr`-based
otherwise). -/
def pyStr : JValue → String
  | .str s => s
  | v => pyRepr v

/-! The external HTTP world.  Each outbound call of the source is an
oracle: `.ok body` is a 2xx response whose body decoded as JSON, and
`.error msg` is any `requests.RequestException` — transport failure,
`raise_for_status` on a non-2xx status, or a body `response.json()`
cannot decode (`requests.exceptions.JSONDecodeError` is a
`RequestException` subclass). -/
structure World where
  /-- `POST {base_url}/chat/completions` with the tool-calling payload of
  `_search_with_model`, indexed by (model, user_query). -/
  completeWithTool : String → String → Except String JValue
  /-- `POST {base_url}/chat/completions` with the analysis payload of
  `_get_ai_analysis`, indexed by (payload model, user-message content). -/
  completeAnalysis : String → String → Except String JValue
  /-- `GET {wordpress_api_url}?content_format=plain&per_page=p`. -/
  wpGet : Int → Except String JValue
  /-- `GET {wordpress_api_url}/{content_id}`. -/
  wpGetById : Int → Except String JValue

/-- Observable request events, recorded in issue order so that claims
about which endpoints and models are contacted can be stated. -/
inductive Ev where
  | toolCall (model : String)
  | analysisCall (model : String)
  | wpFetch (perPage : Int)
deriving DecidableEq, Repr

/-- The engine's configuration surface (`config.py` fields the search
path reads; `verbose_logging` only gates a print and is omitted). -/
structure Engine where
  current_model : String
  fallback_models : List String
  max_results : Int

/-- Normalized content item produced by `_format_content_item`.  Python
builds a plain dict, so every field is itself a dynamic value. -/
structure ContentRecord where
  id : JValue
  title : JValue
  excerpt : JValue
  content : JValue
  url : JValue
  date : JValue
  author : JValue
  type : JValue
  slug : JValue

/-- `_format_content_item`: normalize one raw item.  `.get` on a
non-mapping raises `AttributeError`; otherwise every field falls back to
its documented default. -/
def format_content_item (item : JValue) : Except PyErr ContentRecord :=
  match item with
  | .obj fields =>
    let author_info := (fields.lookup "author").getD (.obj [])
    let author_name :=
      match author_info with
      | .obj afs => (afs.lookup "name").getD (.str "Unknown")
      | _ => JValue.str "Unknown"
    .ok
      { id := (fields.lookup "id").getD .null
        title := (fields.lookup "title").getD (.str "Untitled")
        excerpt := (fields.lookup "excerpt").getD (.str "")
        content := (fields.lookup "content").getD (.str "")
        url := (fields.lookup "url").getD (.str "")
        date := (fields.lookup "date").getD (.str "")
        author := author_name
        type := (fields.lookup "type").getD (.str "post")
        slug := (fields.lookup "slug").getD (.str "") }
  | _ => .error .attrError

/-- The dict `_format_content_item` returns, as a dynamic value (used to
feed a formatted record through the formatter again). -/
def ContentRecord.toJValue (r : ContentRecord) : JValue :=
  .obj [("id", r.id), ("title", r.title), ("excerpt", r.excerpt),
        ("content", r.content), ("url", r.url), ("date", r.date),
        ("author", r.author), ("type", r.type), ("slug", r.slug)]

/-- `_filter_content_by_query`: format every item; the query argument is
deliberately unused (relevance is deferred to the model). -/
def filter_content_by_query (content : JValue) (query : JValue) :
    Except PyErr (List ContentRecord) :=
  match pyIterate content with
  | .error e => .error e
  | .ok items => mapExcept format_content_item items

/-- The `if max_results is None: max_results = config.max_results`
default at the top of `search_content`: only Python `None` is replaced
by the configured default. -/
def defaultMaxResults (max_results : JValue) (cfg_max_results : Int) : JValue :=
  match max_results with
  | .null => .num cfg_max_results
  | v => v

/-- `search_content`: default a `None` bound to `config.max_results`
(passed in as `cfg_max_results`, mirroring the global config read), then
one GET with `per_page = min(max_results, 100)`, normalize, and truncate
to `max_results`.  `RequestException` (which includes an undecodable
body) is re-raised as `WordPressAPIError`; shape errors from the
comprehension are not caught.  The rate-limiter sleep is modelled
separately (`rate_limit`), as it does not affect the result. -/
def search_content (w : World) (query : JValue) (max_results : JValue)
    (cfg_max_results : Int) : Except PyErr (List ContentRecord) × List Ev :=
  match pyAsInt (defaultMaxResults max_results cfg_max_results) with
  | none => (.error .typeError, [])
  | some m =>
    let per_page := min m 100
    match w.wpGet per_page with
    | .error msg =>
      (.error (.wpError ("WordPress API request failed: " ++ msg)), [.wpFetch per_page])
    | .ok body =>
      match filter_content_by_query body query with
      | .error e => (.error e, [.wpFetch per_page])
      | .ok recs => (.ok (pySlice recs m), [.wpFetch per_page])

/-- `get_content_by_id`: best-effort lookup; only `RequestException` is
caught (yielding `None`); formatting errors on a decoded body propagate. -/
def get_content_by_id (w : World) (content_id : Int) :
    Except PyErr (Option ContentRecord) :=
  match w.wpGetById content_id with
  | .error _ => .ok none
  | .ok body =>
    match format_content_item body with
    | .error e => .error e
    | .ok r => .ok (some r)

/-! Rate limiter (`_rate_limit`).  Real time is modelled by an explicit
clock: `time.time()` reads it, `time.sleep(d)` advances it by exactly
`d`, and arbitrary non-negative drift may occur between calls. -/

/-- `min_request_interval = 0.1` seconds (100 ms). -/
def min_request_interval : ℚ := 1 / 10

/-- Client state for rate limiting: the model clock and the
`last_request_time` field. -/
structure RLState where
  clock : ℚ
  last_request_time : ℚ

/-- `_rate_limit`: sleep away any remainder of the minimum interval, then
record the new timestamp (a fresh `time.time()` read after the sleep). -/
def rate_limit (s : RLState) : RLState :=
  let current_time := s.clock
  let time_since_last := current_time - s.last_request_time
  let clock2 :=
    if time_since_last < min_request_interval then
      s.clock + (min_request_interval - time_since_last)
    else s.clock
  { clock := clock2, last_request_time := clock2 }

/-- `N = gaps.length + 1` consecutive rate-limited calls by one caller:
the first fires from state `s`, and each later one after its preceding
inter-call drift. -/
def consecutive_calls (s : RLState) (gaps : List ℚ) : RLState :=
  gaps.foldl (fun t d => rate_limit { t with clock := t.clock + d }) (rate_limit s)

/-! The AI search engine (`ai_search.py`).  The externally visible
outcome record built by `search` and its helpers. -/

/-- The result dict `search` returns: original query, normalized records,
analysis text, identifier of the model used (or a sentinel string), and
record count. -/
structure SearchResult where
  query : String
  results : List ContentRecord
  analysis : JValue
  model_used : JValue
  total_results : Nat

/-- One numbered entry of `_format_results_for_ai` (f-string with the
excerpt truncated to 200 characters; slicing a non-sliceable excerpt
raises `TypeError`). -/
def format_one_result (i : Nat) (r : ContentRecord) : Except PyErr String :=
  match r.excerpt with
  | .str s =>
    .ok ("\nResult " ++ toString i ++ ":\nTitle: " ++ pyStr r.title ++
         "\nExcerpt: " ++ String.mk (s.toList.take 200) ++ "...\nURL: " ++ pyStr r.url ++
         "\nAuthor: " ++ pyStr r.author ++ "\nDate: " ++ pyStr r.date ++ "\n")
  | .arr xs =>
    .ok ("\nResult " ++ toString i ++ ":\nTitle: " ++ pyStr r.title ++
         "\nExcerpt: " ++ pyStr (.arr (xs.take 200)) ++ "...\nURL: " ++ pyStr r.url ++
         "\nAuthor: " ++ pyStr r.author ++ "\nDate: " ++ pyStr r.date ++ "\n")
  | _ => .error .typeError

/-- Format entries numbered from `i`. -/
def format_results_go (i : Nat) : List ContentRecord → Except PyErr (List String)
  | [] => .ok []
  | r :: rest =>
    match format_one_result i r with
    | .error e => .error e
    | .ok s =>
      match format_results_go (i + 1) rest with
      | .error e => .error e
      | .ok ss => .ok (s :: ss)

/-- `_format_results_for_ai`: the numbered-list text sent to the analysis
completion. -/
def format_results_for_ai (results : List ContentRecord) : Except PyErr String :=
  if results.isEmpty then .ok "No content found."
  else
    match format_results_go 1 results with
    | .error e => .error e
    | .ok lines => .ok (String.intercalate "\n" lines)

/-- The user-message content of the analysis completion payload. -/
def analysis_user_content (user_query formatted_results : String) : String :=
  "User Query: " ++ user_query ++ "\n\nSearch Results:\n" ++ formatted_results ++
  "\n\nPlease provide a helpful answer based on these search results. Include relevant citations and source links."

/-- `_get_ai_analysis`: one analysis-only completion against
`self.current_model`.  A `RequestException` is swallowed into the fixed
degraded message; a decoded response of unexpected shape raises. -/
def get_ai_analysis (eng : Engine) (w : World) (user_query formatted_results : String) :
    Except PyErr JValue × List Ev :=
  match w.completeAnalysis eng.current_model (analysis_user_content user_query formatted_results) with
  | .error _ =>
    (.ok (.str "Unable to analyze results at this time."), [.analysisCall eng.current_model])
  | .ok body =>
    match (pyIndexStr body "choices").bind (fun c =>
            (pyIndexNat c 0).bind (fun c0 =>
              (pyIndexStr c0 "message").bind (fun m => pyIndexStr m "content"))) with
    | .error e => (.error e, [.analysisCall eng.current_model])
    | .ok c => (.ok c, [.analysisCall eng.current_model])

/-- `ai_response['choices'][0]['message']`. -/
def pyChoicesMessage (body : JValue) : Except PyErr JValue :=
  (pyIndexStr body "choices").bind (fun c =>
    (pyIndexNat c 0).bind (fun c0 => pyIndexStr c0 "message"))

/-- The `for tool_call in tool_calls` scan: the first entry whose
`['function']['name']` equals `'search_wordpress'`; an indexing error on
an earlier entry propagates, and `none` means the loop fell through. -/
def find_search_tool_call : List JValue → Except PyErr (Option JValue)
  | [] => .ok none
  | tc :: rest =>
    match (pyIndexStr tc "function").bind (fun f => pyIndexStr f "name") with
    | .error e => .error e
    | .ok name =>
      match name with
      | .str s => if s = "search_wordpress" then .ok (some tc) else find_search_tool_call rest
      | _ => find_search_tool_call rest

/-- Argument extraction of the tool branch: decode
`tool_call['function']['arguments']` with `json.loads`, then
`args.get('query', user_query)` and `args.get('maxResults', max_results)`. -/
def tool_search_args (tc : JValue) (user_query : String) (max_results : JValue) :
    Except PyErr (JValue × JValue) :=
  match (pyIndexStr tc "function").bind (fun f => pyIndexStr f "arguments") with
  | .error e => .error e
  | .ok fargs =>
    match json_loads fargs with
    | .error e => .error e
    | .ok args =>
      match pyDictGet args "query" (.str user_query) with
      | .error e => .error e
      | .ok sq =>
        match pyDictGet args "maxResults" max_results with
        | .error e => .error e
        | .ok smr => .ok (sq, smr)

/-- The no-tool-call branch of `_process_ai_response`: the model's direct
text is the analysis with zero results. -/
def direct_response (body msg : JValue) (user_query : String) : Except PyErr SearchResult :=
  match pyDictGet msg "content" (.str "No relevant content found.") with
  | .error e => .error e
  | .ok c =>
    match pyIndexStr body "model" with
    | .error e => .error e
    | .ok m =>
      .ok { query := user_query, results := [], analysis := c,
            model_used := m, total_results := 0 }

/-- The tool branch of `_process_ai_response`: execute the WordPress
search, format the records, obtain the analysis, and assemble the result. -/
def tool_path (eng : Engine) (w : World) (body tc : JValue) (user_query : String)
    (max_results : JValue) : Except PyErr SearchResult × List Ev :=
  match tool_search_args tc user_query max_results with
  | .error e => (.error e, [])
  | .ok (sq, smr) =>
    match (search_content w sq smr eng.max_results).1 with
    | .error e => (.error e, (search_content w sq smr eng.max_results).2)
    | .ok recs =>
      match format_results_for_ai recs with
      | .error e => (.error e, (search_content w sq smr eng.max_results).2)
      | .ok fr =>
        match (get_ai_analysis eng w user_query fr).1 with
        | .error e =>
          (.error e, (search_content w sq smr eng.max_results).2 ++ (get_ai_analysis eng w user_query fr).2)
        | .ok analysis =>
          match pyIndexStr body "model" with
          | .error e =>
            (.error e, (search_content w sq smr eng.max_results).2 ++ (get_ai_analysis eng w user_query fr).2)
          | .ok m =>
            (.ok { query := user_query, results := recs, analysis := analysis,
                   model_used := m, total_results := recs.length },
             (search_content w sq smr eng.max_results).2 ++ (get_ai_analysis eng w user_query fr).2)

/-- The body of `_process_ai_response`'s `try` block. -/
def process_core (eng : Engine) (w : World) (ai_response : JValue) (user_query : String)
    (max_results : JValue) : Except PyErr SearchResult × List Ev :=
  match pyChoicesMessage ai_response with
  | .error e => (.error e, [])
  | .ok msg =>
    match pyContains msg "tool_calls" with
    | .error e => (.error e, [])
    | .ok true =>
      match pyIndexStr msg "tool_calls" with
      | .error e => (.error e, [])
      | .ok tcs =>
        match pyIterate tcs with
        | .error e => (.error e, [])
        | .ok items =>
          match find_search_tool_call items with
          | .error e => (.error e, [])
          | .ok none => (direct_response ai_response msg user_query, [])
          | .ok (some tc) => tool_path eng w ai_response tc user_query max_results
    | .ok false => (direct_response ai_response msg user_query, [])

/-- `_process_ai_response`: the `except (KeyError, IndexError,
json.JSONDecodeError)` clause re-raises those three as `AIError`; every
other exception (`TypeError`, `AttributeError`, `WordPressAPIError`, …)
propagates unchanged. -/
def process_ai_response (eng : Engine) (w : World) (ai_response : JValue)
    (user_query : String) (max_results : JValue) : Except PyErr SearchResult × List Ev :=
  match (process_core eng w ai_response user_query max_results).1 with
  | .error .keyError =>
    (.error (.aiError "Failed to process AI response"),
     (process_core eng w ai_response user_query max_results).2)
  | .error .indexError =>
    (.error (.aiError "Failed to process AI response"),
     (process_core eng w ai_response user_query max_results).2)
  | .error .jsonDecodeError =>
    (.error (.aiError "Failed to process AI response"),
     (process_core eng w ai_response user_query max_results).2)
  | _ => process_core eng w ai_response user_query max_results

/-- `_search_with_model`: one tool-calling completion against `model`;
a `RequestException` is re-raised as `AIError`, and the decoded response
is handed to `_process_ai_response`. -/
def search_with_model (eng : Engine) (w : World) (user_query : String)
    (max_results : JValue) (model : String) : Except PyErr SearchResult × List Ev :=
  match w.completeWithTool model user_query with
  | .error msg => (.error (.aiError ("OpenRouter API request failed: " ++ msg)), [.toolCall model])
  | .ok body =>
    ((process_ai_response eng w body user_query max_results).1,
     .toolCall model :: (process_ai_response eng w body user_query max_results).2)

/-- `_fallback_search`: a direct WordPress search; only
`WordPressAPIError` is caught (the "error" sentinel), so shape errors
from the fetch propagate. -/
def fallback_search (w : World) (user_query : String) (max_results : JValue)
    (cfg_max_results : Int) : Except PyErr SearchResult × List Ev :=
  match (search_content w (.str user_query) max_results cfg_max_results).1 with
  | .ok results =>
    (.ok { query := user_query, results := results,
           analysis := .str ("Found " ++ toString results.length ++
             " results for your query. (Fallback search - AI analysis unavailable)"),
           model_used := .str "fallback", total_results := results.length },
     (search_content w (.str user_query) max_results cfg_max_results).2)
  | .error (.wpError msg) =>
    (.ok { query := user_query, results := [],
           analysis := .str ("Search failed: " ++ msg),
           model_used := .str "error", total_results := 0 },
     (search_content w (.str user_query) max_results cfg_max_results).2)
  | .error e => (.error e, (search_content w (.str user_query) max_results cfg_max_results).2)

/-- The `for model in [self.current_model] + self.fallback_models` loop
of `search`: `except Exception` turns any failure into trying the next
model; an exhausted cascade falls back to the direct search. -/
def try_models (eng : Engine) (w : World) (user_query : String) (max_results : JValue) :
    List String → Except PyErr SearchResult × List Ev
  | [] => fallback_search w user_query max_results eng.max_results
  | m :: rest =>
    match (search_with_model eng w user_query max_results m).1 with
    | .ok r => (.ok r, (search_with_model eng w user_query max_results m).2)
    | .error _ =>
      ((try_models eng w user_query max_results rest).1,
       (search_with_model eng w user_query max_results m).2 ++
         (try_models eng w user_query max_results rest).2)

/-- `search`: the public entry point.  A missing `max_results` defaults
to `config.max_results`. -/
def search (eng : Engine) (w : World) (user_query : String) (max_results : Option Int) :
    Except PyErr SearchResult × List Ev :=
  let mr : Int := max_results.getD eng.max_results
  try_models eng w user_query (.num mr) (eng.current_model :: eng.fallback_models)

/-! Trace observations. -/

/-- The models contacted by tool-calling completions, in order. -/
def toolCallsOf (evs : List Ev) : List String :=
  evs.filterMap (fun e =>
    match e with
    | .toolCall m => some m
    | _ => none)

/-- The payload models of the analysis completions issued, in order. -/
def analysisModelsOf (evs : List Ev) : List String :=
  evs.filterMap (fun e =>
    match e with
    | .analysisCall m => some m
    | _ => none)

/-- Boolean check that an event's analysis payload, if any, names the
given model. -/
def evAnalysisOk (cm : String) (e : Ev) : Bool :=
  match e with
  | .analysisCall m => m == cm
  | _ => true

/-- Boolean check that an event is not a tool-calling completion. -/
def evNotToolCall (e : Ev) : Bool :=
  match e with
  | .toolCall _ => false
  | _ => true

/-! Predicates about the external world used as hypotheses. -/

/-- The content endpoint honors the requested `per_page` cap: a decoded
body never iterates to more items than requested (and to none for a
non-positive request). -/
def WpHonorsPerPage (w : World) : Prop :=
  ∀ p body items, w.wpGet p = .ok body → pyIterate body = .ok items →
    items.length ≤ p.toNat

/-- The tool call the `for` loop of `_process_ai_response` selects from a
decoded completion response, when the whole selection chain succeeds. -/
def extracted_tool_call (body : JValue) : Option JValue :=
  match pyChoicesMessage body with
  | .ok msg =>
    match pyContains msg "tool_calls" with
    | .ok true =>
      match pyIndexStr msg "tool_calls" with
      | .ok tcs =>
        match pyIterate tcs with
        | .ok items =>
          match find_search_tool_call items with
          | .ok (some tc) => some tc
          | _ => none
        | _ => none
      | _ => none
    | _ => none
  | _ => none

/-- No completion response carries a tool invocation that supplies its
own `maxResults` argument. -/
def NoToolMaxResults (w : World) : Prop :=
  ∀ m q body tc fargs args,
    w.completeWithTool m q = .ok body →
    extracted_tool_call body = some tc →
    (pyIndexStr tc "function").bind (fun f => pyIndexStr f "arguments") = .ok fargs →
    json_loads fargs = .ok args →
    jlookup args "maxResults" = none

/-- The raw record's nested `author.name` is missing: the author field is
absent, not a mapping, or a mapping without `name`. -/
def author_name_missing (item : JValue) : Prop :=
  match item with
  | .obj fs =>
    match fs.lookup "author" with
    | some (.obj afs) => afs.lookup "name" = none
    | _ => True
  | _ => True

/-! Concrete scenario data for witnesses and counterexamples. -/

/-- A completion response whose message carries one `search_wordpress`
tool call with the given JSON-encoded arguments. -/
def toolBody (model argsStr : String) : JValue :=
  .obj [("model", .str model),
        ("choices", .arr [.obj [("message", .obj [("tool_calls", .arr [.obj [("function",
          .obj [("name", .str "search_wordpress"), ("arguments", .str argsStr)])]])])]])]

/-- A completion response whose message is a direct text answer with no
tool call. -/
def directBody (model txt : String) : JValue :=
  .obj [("model", .str model),
        ("choices", .arr [.obj [("message", .obj [("content", .str txt)])]])]

/-- An analysis-completion response with the given text content. -/
def analysisBody (txt : String) : JValue :=
  .obj [("choices", .arr [.obj [("message", .obj [("content", .str txt)])]])]

/-- A raw upstream content record with a well-formed author. -/
def rawItem1 : JValue :=
  .obj [("id", .num 1), ("title", .str "Hello"), ("excerpt", .str "First excerpt"),
        ("content", .str "Body one"), ("url", .str "https://example.org/1"),
        ("date", .str "2024-01-01"), ("author", .obj [("name", .str "Alice")]),
        ("type", .str "post"), ("slug", .str "hello")]

/-- A second raw upstream content record. -/
def rawItem2 : JValue :=
  .obj [("id", .num 2), ("title", .str "World"), ("excerpt", .str "Second excerpt"),
        ("content", .str "Body two"), ("url", .str "https://example.org/2"),
        ("date", .str "2024-01-02"), ("author", .obj [("name", .str "Bob")]),
        ("type", .str "post"), ("slug", .str "world")]

/-- A four-model engine matching the configured cascade shape. -/
def engDemo : Engine :=
  { current_model := "primary-model",
    fallback_models := ["fallback-a", "fallback-b"],
    max_results := 5 }

/-- Whether a search outcome is a raised `AIError`. -/
def raisesAIError (res : Except PyErr SearchResult) : Bool :=
  match res with
  | .error (.aiError _) => true
  | _ => false

/-- World where the model's tool invocation supplies `maxResults = 2` and
the content endpoint returns two records when two are requested. -/
def wToolMax : World :=
  { completeWithTool := fun _ _ => .ok (toolBody "primary-model" "\x7b\"maxResults\": 2\x7d"),
    completeAnalysis := fun _ _ => .ok (analysisBody "the answer"),
    wpGet := fun p => .ok (.arr (pySlice [rawItem1, rawItem2] p)),
    wpGetById := fun _ => .error "unused" }

/-- World where every completion fails and the content endpoint's decoded
body is a list whose element is not an object. -/
def wBadShape : World :=
  { completeWithTool := fun _ _ => .error "connection refused",
    completeAnalysis := fun _ _ => .error "connection refused",
    wpGet := fun _ => .ok (.arr [.num 5]),
    wpGetById := fun _ => .error "unused" }

/-- World where every completion fails and the content endpoint serves
one well-formed record. -/
def wModelsDown : World :=
  { completeWithTool := fun _ _ => .error "connection refused",
    completeAnalysis := fun _ _ => .error "connection refused",
    wpGet := fun p => .ok (.arr (pySlice [rawItem1] p)),
    wpGetById := fun _ => .error "unused" }

/-- World where every completion and the content endpoint fail. -/
def wAllDown : World :=
  { completeWithTool := fun _ _ => .error "connection refused",
    completeAnalysis := fun _ _ => .error "connection refused",
    wpGet := fun _ => .error "boom",
    wpGetById := fun _ => .error "boom" }

/-- World where the model's tool invocation carries a malformed
JSON-encoded arguments string. -/
def wBadArgs : World :=
  { completeWithTool := fun _ _ => .ok (toolBody "primary-model" "oops"),
    completeAnalysis := fun _ _ => .ok (analysisBody "unused"),
    wpGet := fun _ => .ok (.arr []),
    wpGetById := fun _ => .error "unused" }

/-- World with a good tool invocation and fetch but an analysis response
of unexpected shape (2xx, decodable, no `choices`). -/
def wBadAnalysis : World :=
  { completeWithTool := fun _ _ => .ok (toolBody "primary-model" "\x7b\x7d"),
    completeAnalysis := fun _ _ => .ok (.obj []),
    wpGet := fun p => .ok (.arr (pySlice [rawItem1] p)),
    wpGetById := fun _ => .error "unused" }

/-- World with a good tool invocation and fetch but an analysis-side
transport outage. -/
def wAnalysisOutage : World :=
  { completeWithTool := fun _ _ => .ok (toolBody "primary-model" "\x7b\x7d"),
    completeAnalysis := fun _ _ => .error "outage",
    wpGet := fun p => .ok (.arr (pySlice [rawItem1] p)),
    wpGetById := fun _ => .error "unused" }

/-- World where every model answers directly without invoking the tool. -/
def wDirect : World :=
  { completeWithTool := fun m _ => .ok (directBody m "I do not need to search for that"),
    completeAnalysis := fun _ _ => .error "unused",
    wpGet := fun _ => .error "unused",
    wpGetById := fun _ => .error "unused" }

/-- World where the primary model's transport fails and fallbacks answer
directly. -/
def wPrimaryDown : World :=
  { completeWithTool := fun m _ =>
      if m = "primary-model" then .error "connection refused"
      else .ok (directBody m "direct answer"),
    completeAnalysis := fun _ _ => .error "unused",
    wpGet := fun _ => .error "unused",
    wpGetById := fun _ => .error "unused" }

/-- World whose by-id endpoint serves a decodable body that is not a JSON
object. -/
def wByIdNum : World :=
  { completeWithTool := fun _ _ => .error "unused",
    completeAnalysis := fun _ _ => .error "unused",
    wpGet := fun _ => .error "unused",
    wpGetById := fun _ => .ok (.num 5) }

/-- A raw record carrying only an `id`, so the author defaults to
"Unknown". -/
def rawItemNoAuthor : JValue := .obj [("id", .num 3)]

/-- The normalized form of `rawItemNoAuthor`. -/
def recNoAuthor : ContentRecord :=
  { id := .num 3, title := .str "Untitled", excerpt := .str "", content := .str "",
    url := .str "", date := .str "", author := .str "Unknown",
    type := .str "post", slug := .str "" }

/-- The normalized form of `rawItem1`. -/
def rec1 : ContentRecord :=
  { id := .num 1, title := .str "Hello", excerpt := .str "First excerpt",
    content := .str "Body one", url := .str "https://example.org/1",
    date := .str "2024-01-01", author := .str "Alice",
    type := .str "post", slug := .str "hello" }

/-- The tool-call entry of `toolBody` with an empty arguments object. -/
def toolCallEmptyArgs : JValue :=
  .obj [("function", .obj [("name", .str "search_wordpress"),
                           ("arguments", .str "\x7b\x7d")])]

/-- The formatted text of the single-record result list. -/
def frWit : String :=
  match format_results_for_ai [rec1] with
  | .ok s => s
  | .error _ => ""

/-- The direct-answer result the first fallback produces in
`wPrimaryDown`. -/
def rC3 : SearchResult :=
  { query := "q", results := [], analysis := .str "direct answer",
    model_used := .str "fallback-a", total_results := 0 }

/-- World obeying both `WpHonorsPerPage` and `NoToolMaxResults`: the
model's tool invocation carries an empty arguments object and the content
endpoint serves at most `per_page` records. -/
def wWitC1 : World :=
  { completeWithTool := fun _ _ => .ok (toolBody "primary-model" "\x7b\x7d"),
    completeAnalysis := fun _ _ => .ok (analysisBody "the answer"),
    wpGet := fun p => .ok (.arr ([rawItem1, rawItem2].take p.toNat)),
    wpGetById := fun _ => .error "unused" }

/-- World where the model's tool invocation supplies `maxResults = 2`
while the content endpoint honors the per_page cap. -/
def wToolMaxCap : World :=
  { completeWithTool := fun _ _ => .ok (toolBody "primary-model" "\x7b\"maxResults\": 2\x7d"),
    completeAnalysis := fun _ _ => .ok (analysisBody "the answer"),
    wpGet := fun p => .ok (.arr ([rawItem1, rawItem2].take p.toNat)),
    wpGetById := fun _ => .error "unused" }

/-- World whose by-id endpoint serves one well-formed record. -/
def wByIdObj : World :=
  { completeWithTool := fun _ _ => .error "unused",
    completeAnalysis := fun _ _ => .error "unused",
    wpGet := fun _ => .error "unused",
    wpGetById := fun _ => .ok rawItemNoAuthor }

/-! Supporting lemmas. -/

theorem mapExcept_ok_length {α β : Type} (f : α → Except PyErr β) :
    ∀ (xs : List α) (ys : List β), mapExcept f xs = .ok ys → ys.length = xs.length
  | [], ys, h => by
    simp only [mapExcept] at h
    injection h with h2
    simp [← h2]
  | x :: rest, ys, h => by
    simp only [mapExcept] at h
    cases hf : f x with
    | error e => rw [hf] at h; exact absurd h (by simp)
    | ok y =>
      rw [hf] at h
      cases hr : mapExcept f rest with
      | error e => rw [hr] at h; exact absurd h (by simp)
      | ok ys2 =>
        rw [hr] at h
        injection h with h2
        simp [← h2, mapExcept_ok_length f rest ys2 hr]

theorem mapExcept_error_exists {α β : Type} (f : α → Except PyErr β) :
    ∀ (xs : List α) (e : PyErr), mapExcept f xs = .error e → ∃ x ∈ xs, f x = .error e
  | [], e, h => by simp only [mapExcept] at h; exact absurd h (by simp)
  | x :: rest, e, h => by
    simp only [mapExcept] at h
    cases hf : f x with
    | error e2 =>
      rw [hf] at h
      injection h with h2
      exact ⟨x, by simp, by rw [hf, h2]⟩
    | ok y =>
      rw [hf] at h
      cases hr : mapExcept f rest with
      | error e2 =>
        rw [hr] at h
        injection h with h2
        obtain ⟨z, hz, hfz⟩ := mapExcept_error_exists f rest e2 hr
        exact ⟨z, by simp [hz], by rw [hfz, h2]⟩
      | ok ys2 => rw [hr] at h; exact absurd h (by simp)

theorem format_content_item_error_eq (item : JValue) (e : PyErr)
    (h : format_content_item item = .error e) : e = .attrError := by
  cases item <;> simp [format_content_item] at h <;> simp [← h]

theorem pyIterate_error_eq (v : JValue) (e : PyErr)
    (h : pyIterate v = .error e) : e = .typeError := by
  cases v <;> simp [pyIterate] at h <;> simp [← h]

theorem pySlice_length_le {α : Type} (xs : List α) (n : Int) :
    (pySlice xs n).length ≤ xs.length := by
  unfold pySlice
  split <;> simp [List.length_take]

theorem pySlice_length_le_toNat {α : Type} (xs : List α) (n : Int) (hn : 0 ≤ n) :
    (pySlice xs n).length ≤ n.toNat := by
  unfold pySlice
  rw [if_pos hn]
  simp [List.length_take]

theorem filter_content_error_shape (body q : JValue) (e : PyErr)
    (h : filter_content_by_query body q = .error e) :
    e = .typeError ∨ e = .attrError := by
  unfold filter_content_by_query at h
  cases hi : pyIterate body with
  | error e2 =>
    rw [hi] at h
    injection h with h2
    exact Or.inl (by rw [← h2]; exact pyIterate_error_eq body e2 hi)
  | ok items =>
    rw [hi] at h
    obtain ⟨x, _, hfx⟩ := mapExcept_error_exists format_content_item items e h
    exact Or.inr (format_content_item_error_eq x e hfx)

theorem filter_content_ok_length (body q : JValue) (recs : List ContentRecord)
    (h : filter_content_by_query body q = .ok recs) :
    ∃ items, pyIterate body = .ok items ∧ recs.length = items.length := by
  unfold filter_content_by_query at h
  cases hi : pyIterate body with
  | error e => rw [hi] at h; exact absurd h (by simp)
  | ok items =>
    rw [hi] at h
    exact ⟨items, rfl, mapExcept_ok_length format_content_item items recs h⟩

theorem search_content_ok_bound (w : World) (q mv : JValue) (cfg : Int)
    (recs : List ContentRecord) (hcap : WpHonorsPerPage w)
    (h : (search_content w q mv cfg).1 = .ok recs) :
    ∃ n, pyAsInt (defaultMaxResults mv cfg) = some n ∧
      recs.length ≤ (min n 100).toNat := by
  unfold search_content at h
  cases ha : pyAsInt (defaultMaxResults mv cfg) with
  | none => rw [ha] at h; exact absurd h (by simp)
  | some n =>
    rw [ha] at h
    dsimp only at h
    refine ⟨n, rfl, ?_⟩
    cases hg : w.wpGet (min n 100) with
    | error msg => rw [hg] at h; exact absurd h (by simp)
    | ok body =>
      rw [hg] at h
      dsimp only at h
      cases hf : filter_content_by_query body q with
      | error e => rw [hf] at h; exact absurd h (by simp)
      | ok allrecs =>
        rw [hf] at h
        dsimp only at h
        injection h with h2
        obtain ⟨items, hi, hlen⟩ := filter_content_ok_length body q allrecs hf
        calc recs.length = (pySlice allrecs n).length := by rw [← h2]
          _ ≤ allrecs.length := pySlice_length_le allrecs n
          _ = items.length := hlen
          _ ≤ (min n 100).toNat := hcap (min n 100) body items hg hi

theorem search_content_error_shape (w : World) (q mv : JValue) (cfg : Int) (e : PyErr)
    (h : (search_content w q mv cfg).1 = .error e) :
    e = .typeError ∨ e = .attrError ∨ ∃ msg, e = .wpError msg := by
  unfold search_content at h
  cases ha : pyAsInt (defaultMaxResults mv cfg) with
  | none => rw [ha] at h; dsimp at h; injection h with h2; exact Or.inl h2.symm
  | some n =>
    rw [ha] at h
    dsimp only at h
    cases hg : w.wpGet (min n 100) with
    | error msg =>
      rw [hg] at h
      dsimp at h
      injection h with h2
      exact Or.inr (Or.inr ⟨_, h2.symm⟩)
    | ok body =>
      rw [hg] at h
      dsimp only at h
      cases hf : filter_content_by_query body q with
      | error e2 =>
        rw [hf] at h
        dsimp only at h
        injection h with h2
        rw [← h2]
        exact (filter_content_error_shape body q e2 hf).imp id Or.inl
      | ok allrecs => rw [hf] at h; exact absurd h (by simp)

theorem search_content_trace_all (w : World) (q mv : JValue) (cfg : Int) (P : Ev → Bool)
    (hP : ∀ p, P (.wpFetch p) = true) :
    (search_content w q mv cfg).2.all P = true := by
  unfold search_content
  cases ha : pyAsInt (defaultMaxResults mv cfg) with
  | none => simp [ha]
  | some n =>
    cases hg : w.wpGet (min n 100) with
    | error msg => simp [ha, hg, hP]
    | ok body =>
      cases hf : filter_content_by_query body q with
      | error e => simp [ha, hg, hf, hP]
      | ok allrecs => simp [ha, hg, hf, hP]

theorem get_ai_analysis_trace (eng : Engine) (w : World) (q fr : String) :
    (get_ai_analysis eng w q fr).2 = [.analysisCall eng.current_model] := by
  unfold get_ai_analysis
  cases ha : w.completeAnalysis eng.current_model (analysis_user_content q fr) with
  | error s => rfl
  | ok body =>
    dsimp only
    cases hc : (pyIndexStr body "choices").bind (fun c =>
        (pyIndexNat c 0).bind (fun c0 =>
          (pyIndexStr c0 "message").bind (fun m => pyIndexStr m "content"))) with
    | error e => simp [hc]
    | ok c => simp [hc]

theorem tool_search_args_ok_inv (tc : JValue) (q : String) (mv sq smr : JValue)
    (h : tool_search_args tc q mv = .ok (sq, smr)) :
    ∃ fargs fs,
      (pyIndexStr tc "function").bind (fun f => pyIndexStr f "arguments") = .ok fargs ∧
      json_loads fargs = .ok (.obj fs) ∧
      sq = (fs.lookup "query").getD (.str q) ∧
      smr = (fs.lookup "maxResults").getD mv := by
  unfold tool_search_args at h
  cases hx : (pyIndexStr tc "function").bind (fun f => pyIndexStr f "arguments") with
  | error e => rw [hx] at h; exact absurd h (by simp)
  | ok fargs =>
    rw [hx] at h
    dsimp only at h
    cases hj : json_loads fargs with
    | error e => rw [hj] at h; exact absurd h (by simp)
    | ok args =>
      rw [hj] at h
      dsimp only at h
      cases args with
      | obj fs =>
        simp only [pyDictGet] at h
        injection h with h2
        injection h2 with h3 h4
        exact ⟨fargs, fs, rfl, hj, h3.symm, h4.symm⟩
      | null => simp [pyDictGet] at h
      | bool b => simp [pyDictGet] at h
      | num n => simp [pyDictGet] at h
      | str s => simp [pyDictGet] at h
      | arr xs => simp [pyDictGet] at h

theorem direct_response_ok_cases (body msg : JValue) (q : String) (r : SearchResult)
    (h : direct_response body msg q = .ok r) :
    r.query = q ∧ pyIndexStr body "model" = .ok r.model_used ∧
    r.results = [] ∧ r.total_results = 0 := by
  unfold direct_response at h
  cases hc : pyDictGet msg "content" (.str "No relevant content found.") with
  | error e => rw [hc] at h; exact absurd h (by simp)
  | ok c =>
    rw [hc] at h
    dsimp only at h
    cases hm : pyIndexStr body "model" with
    | error e => rw [hm] at h; exact absurd h (by simp)
    | ok m =>
      rw [hm] at h
      dsimp only at h
      injection h with h2
      subst h2
      exact ⟨rfl, rfl, rfl, rfl⟩

theorem tool_path_ok_cases (eng : Engine) (w : World) (body tc : JValue) (q : String)
    (mv : JValue) (r : SearchResult) (h : (tool_path eng w body tc q mv).1 = .ok r) :
    r.query = q ∧ pyIndexStr body "model" = .ok r.model_used ∧
    ∃ sq smr, tool_search_args tc q mv = .ok (sq, smr) ∧
      (search_content w sq smr eng.max_results).1 = .ok r.results ∧
      r.total_results = r.results.length := by
  unfold tool_path at h
  cases ht : tool_search_args tc q mv with
  | error e => rw [ht] at h; exact absurd h (by simp)
  | ok p =>
    obtain ⟨sq, smr⟩ := p
    rw [ht] at h
    dsimp only at h
    cases hsc : (search_content w sq smr eng.max_results).1 with
    | error e => rw [hsc] at h; exact absurd h (by simp)
    | ok recs =>
      rw [hsc] at h
      dsimp only at h
      cases hf : format_results_for_ai recs with
      | error e => rw [hf] at h; exact absurd h (by simp)
      | ok fr =>
        rw [hf] at h
        dsimp only at h
        cases hg : (get_ai_analysis eng w q fr).1 with
        | error e => rw [hg] at h; exact absurd h (by simp)
        | ok analysis =>
          rw [hg] at h
          dsimp only at h
          cases hm : pyIndexStr body "model" with
          | error e => rw [hm] at h; exact absurd h (by simp)
          | ok m =>
            rw [hm] at h
            dsimp only at h
            injection h with h2
            subst h2
            exact ⟨rfl, rfl, sq, smr, rfl, hsc, rfl⟩

theorem process_core_ok_cases (eng : Engine) (w : World) (body : JValue) (q : String)
    (mv : JValue) (r : SearchResult) (h : (process_core eng w body q mv).1 = .ok r) :
    r.query = q ∧ pyIndexStr body "model" = .ok r.model_used ∧
    (r.results = [] ∧ r.total_results = 0 ∨
     ∃ tc sq smr, extracted_tool_call body = some tc ∧
       tool_search_args tc q mv = .ok (sq, smr) ∧
       (search_content w sq smr eng.max_results).1 = .ok r.results ∧
       r.total_results = r.results.length) := by
  unfold process_core at h
  cases h1 : pyChoicesMessage body with
  | error e => rw [h1] at h; exact absurd h (by simp)
  | ok msg =>
    rw [h1] at h
    dsimp only at h
    cases h2 : pyContains msg "tool_calls" with
    | error e => rw [h2] at h; exact absurd h (by simp)
    | ok b =>
      rw [h2] at h
      cases b with
      | false =>
        dsimp only at h
        obtain ⟨hq, hm, hres, htot⟩ := direct_response_ok_cases body msg q r h
        exact ⟨hq, hm, Or.inl ⟨hres, htot⟩⟩
      | true =>
        dsimp only at h
        cases h3 : pyIndexStr msg "tool_calls" with
        | error e => rw [h3] at h; exact absurd h (by simp)
        | ok tcs =>
          rw [h3] at h
          dsimp only at h
          cases h4 : pyIterate tcs with
          | error e => rw [h4] at h; exact absurd h (by simp)
          | ok items =>
            rw [h4] at h
            dsimp only at h
            cases h5 : find_search_tool_call items with
            | error e => rw [h5] at h; exact absurd h (by simp)
            | ok otc =>
              rw [h5] at h
              cases otc with
              | none =>
                dsimp only at h
                obtain ⟨hq, hm, hres, htot⟩ := direct_response_ok_cases body msg q r h
                exact ⟨hq, hm, Or.inl ⟨hres, htot⟩⟩
              | some tc =>
                dsimp only at h
                obtain ⟨hq, hm, sq, smr, ht, hsc, htot⟩ :=
                  tool_path_ok_cases eng w body tc q mv r h
                refine ⟨hq, hm, Or.inr ⟨tc, sq, smr, ?_, ht, hsc, htot⟩⟩
                simp [extracted_tool_call, h1, h2, h3, h4, h5]

theorem process_ai_response_ok_iff (eng : Engine) (w : World) (body : JValue) (q : String)
    (mv : JValue) (r : SearchResult) :
    (process_ai_response eng w body q mv).1 = .ok r ↔
      (process_core eng w body q mv).1 = .ok r := by
  unfold process_ai_response
  cases hp : (process_core eng w body q mv).1 with
  | ok r2 => simp [hp]
  | error e => cases e <;> simp [hp]

theorem process_ok_cases (eng : Engine) (w : World) (body : JValue) (q : String)
    (mv : JValue) (r : SearchResult) (h : (process_ai_response eng w body q mv).1 = .ok r) :
    r.query = q ∧ pyIndexStr body "model" = .ok r.model_used ∧
    (r.results = [] ∧ r.total_results = 0 ∨
     ∃ tc sq smr, extracted_tool_call body = some tc ∧
       tool_search_args tc q mv = .ok (sq, smr) ∧
       (search_content w sq smr eng.max_results).1 = .ok r.results ∧
       r.total_results = r.results.length) :=
  process_core_ok_cases eng w body q mv r
    ((process_ai_response_ok_iff eng w body q mv r).mp h)

theorem tool_path_trace_all (eng : Engine) (w : World) (body tc : JValue) (q : String)
    (mv : JValue) (P : Ev → Bool) (hw : ∀ p, P (.wpFetch p) = true)
    (ha : P (.analysisCall eng.current_model) = true) :
    (tool_path eng w body tc q mv).2.all P = true := by
  unfold tool_path
  cases ht : tool_search_args tc q mv with
  | error e => simp [ht]
  | ok p =>
    obtain ⟨sq, smr⟩ := p
    have hsct := search_content_trace_all w sq smr eng.max_results P hw
    cases hsc : (search_content w sq smr eng.max_results).1 with
    | error e => simp [ht, hsc, hsct]
    | ok recs =>
      cases hf : format_results_for_ai recs with
      | error e => simp [ht, hsc, hf, hsct]
      | ok fr =>
        have hgat : (get_ai_analysis eng w q fr).2.all P = true := by
          rw [get_ai_analysis_trace]
          simp [ha]
        cases hg : (get_ai_analysis eng w q fr).1 with
        | error e => simp [ht, hsc, hf, hg, List.all_append, hsct, hgat]
        | ok analysis =>
          cases hm : pyIndexStr body "model" with
          | error e => simp [ht, hsc, hf, hg, hm, List.all_append, hsct, hgat]
          | ok m => simp [ht, hsc, hf, hg, hm, List.all_append, hsct, hgat]

theorem process_core_trace_all (eng : Engine) (w : World) (body : JValue) (q : String)
    (mv : JValue) (P : Ev → Bool) (hw : ∀ p, P (.wpFetch p) = true)
    (ha : P (.analysisCall eng.current_model) = true) :
    (process_core eng w body q mv).2.all P = true := by
  unfold process_core
  cases h1 : pyChoicesMessage body with
  | error e => simp [h1]
  | ok msg =>
    cases h2 : pyContains msg "tool_calls" with
    | error e => simp [h1, h2]
    | ok b =>
      cases b with
      | false => simp [h1, h2]
      | true =>
        cases h3 : pyIndexStr msg "tool_calls" with
        | error e => simp [h1, h2, h3]
        | ok tcs =>
          cases h4 : pyIterate tcs with
          | error e => simp [h1, h2, h3, h4]
          | ok items =>
            cases h5 : find_search_tool_call items with
            | error e => simp [h1, h2, h3, h4, h5]
            | ok otc =>
              cases otc with
              | none => simp [h1, h2, h3, h4, h5]
              | some tc =>
                simp only [h1, h2, h3, h4, h5]
                exact tool_path_trace_all eng w body tc q mv P hw ha

theorem process_trace_all (eng : Engine) (w : World) (body : JValue) (q : String)
    (mv : JValue) (P : Ev → Bool) (hw : ∀ p, P (.wpFetch p) = true)
    (ha : P (.analysisCall eng.current_model) = true) :
    (process_ai_response eng w body q mv).2.all P = true := by
  have hc := process_core_trace_all eng w body q mv P hw ha
  unfold process_ai_response
  cases hp : (process_core eng w body q mv).1 with
  | ok r2 => simpa [hp] using hc
  | error e => cases e <;> simpa [hp] using hc

theorem search_with_model_trace_all (eng : Engine) (w : World) (q : String) (mv : JValue)
    (m : String) (P : Ev → Bool) (hw : ∀ p, P (.wpFetch p) = true)
    (ha : P (.analysisCall eng.current_model) = true)
    (htc : ∀ m2, P (.toolCall m2) = true) :
    (search_with_model eng w q mv m).2.all P = true := by
  unfold search_with_model
  cases hc : w.completeWithTool m q with
  | error s => simp [hc, htc]
  | ok body =>
    simp only [hc]
    simp [htc, process_trace_all eng w body q mv P hw ha]

theorem fallback_search_trace_all (w : World) (q : String) (mv : JValue) (cfg : Int)
    (P : Ev → Bool) (hw : ∀ p, P (.wpFetch p) = true) :
    (fallback_search w q mv cfg).2.all P = true := by
  have hsct := search_content_trace_all w (.str q) mv cfg P hw
  unfold fallback_search
  cases hsc : (search_content w (.str q) mv cfg).1 with
  | ok results => simpa [hsc] using hsct
  | error e =>
    cases e <;> simpa [hsc] using hsct

theorem try_models_trace_all (eng : Engine) (w : World) (q : String) (mv : JValue)
    (P : Ev → Bool) (hw : ∀ p, P (.wpFetch p) = true)
    (ha : P (.analysisCall eng.current_model) = true)
    (htc : ∀ m2, P (.toolCall m2) = true) :
    ∀ ms : List String, (try_models eng w q mv ms).2.all P = true
  | [] => fallback_search_trace_all w q mv eng.max_results P hw
  | m :: rest => by
    have hsw := search_with_model_trace_all eng w q mv m P hw ha htc
    have ih := try_models_trace_all eng w q mv P hw ha htc rest
    unfold try_models
    cases hs : (search_with_model eng w q mv m).1 with
    | ok r => simpa [hs] using hsw
    | error e => simp [hs, List.all_append, hsw, ih]

theorem search_trace_all (eng : Engine) (w : World) (q : String) (mro : Option Int)
    (P : Ev → Bool) (hw : ∀ p, P (.wpFetch p) = true)
    (ha : P (.analysisCall eng.current_model) = true)
    (htc : ∀ m2, P (.toolCall m2) = true) :
    (search eng w q mro).2.all P = true := by
  unfold search
  exact try_models_trace_all eng w q (.num (mro.getD eng.max_results)) P hw ha htc
    (eng.current_model :: eng.fallback_models)

theorem toolCallsOf_eq_nil_of_all (evs : List Ev) (h : evs.all evNotToolCall = true) :
    toolCallsOf evs = [] := by
  induction evs with
  | nil => rfl
  | cons e rest ih =>
    simp only [List.all_cons, Bool.and_eq_true] at h
    cases e with
    | toolCall m => simp [evNotToolCall] at h
    | analysisCall m =>
      simpa [toolCallsOf, List.filterMap_cons] using ih h.2
    | wpFetch p =>
      simpa [toolCallsOf, List.filterMap_cons] using ih h.2

theorem search_with_model_fail (eng : Engine) (w : World) (q : String) (mv : JValue)
    (m s : String) (h : w.completeWithTool m q = .error s) :
    search_with_model eng w q mv m =
      (.error (.aiError ("OpenRouter API request failed: " ++ s)), [.toolCall m]) := by
  unfold search_with_model
  rw [h]

theorem search_with_model_ok_inv (eng : Engine) (w : World) (q : String) (mv : JValue)
    (m : String) (r : SearchResult) (h : (search_with_model eng w q mv m).1 = .ok r) :
    ∃ body, w.completeWithTool m q = .ok body ∧
      (process_ai_response eng w body q mv).1 = .ok r := by
  unfold search_with_model at h
  cases hc : w.completeWithTool m q with
  | error s => rw [hc] at h; exact absurd h (by simp)
  | ok body =>
    rw [hc] at h
    dsimp only at h
    exact ⟨body, rfl, h⟩

theorem try_models_error_fallback (eng : Engine) (w : World) (q : String) (mv : JValue) :
    ∀ (ms : List String) (e : PyErr), (try_models eng w q mv ms).1 = .error e →
      (fallback_search w q mv eng.max_results).1 = .error e
  | [], e, h => by simpa [try_models] using h
  | m :: rest, e, h => by
    unfold try_models at h
    cases hs : (search_with_model eng w q mv m).1 with
    | ok r => rw [hs] at h; exact absurd h (by simp)
    | error e2 =>
      rw [hs] at h
      dsimp only at h
      exact try_models_error_fallback eng w q mv rest e h

theorem fallback_search_no_aiError (w : World) (q : String) (mv : JValue) (cfg : Int) :
    raisesAIError (fallback_search w q mv cfg).1 = false := by
  unfold fallback_search
  cases hsc : (search_content w (.str q) mv cfg).1 with
  | ok results => simp [hsc, raisesAIError]
  | error e =>
    rcases search_content_error_shape w (.str q) mv cfg e hsc with h | h | ⟨msg, h⟩ <;>
      subst h <;> simp [hsc, raisesAIError]

theorem try_models_no_aiError (eng : Engine) (w : World) (q : String) (mv : JValue) :
    ∀ ms : List String, raisesAIError (try_models eng w q mv ms).1 = false
  | [] => by simpa [try_models] using fallback_search_no_aiError w q mv eng.max_results
  | m :: rest => by
    unfold try_models
    cases hs : (search_with_model eng w q mv m).1 with
    | ok r => simp [hs, raisesAIError]
    | error e => simpa [hs] using try_models_no_aiError eng w q mv rest

theorem try_models_allfail (eng : Engine) (w : World) (q : String) (mv : JValue)
    (hfail : ∀ m, ∃ s, w.completeWithTool m q = .error s) :
    ∀ ms : List String, try_models eng w q mv ms =
      ((fallback_search w q mv eng.max_results).1,
       ms.map Ev.toolCall ++ (fallback_search w q mv eng.max_results).2)
  | [] => by simp [try_models]
  | m :: rest => by
    obtain ⟨s, hs⟩ := hfail m
    have hf := search_with_model_fail eng w q mv m s hs
    have ih := try_models_allfail eng w q mv hfail rest
    unfold try_models
    rw [hf]
    dsimp only
    rw [ih]
    simp

theorem fallback_search_ok_eq (w : World) (q : String) (mv : JValue) (cfg : Int)
    (recs : List ContentRecord) (h : (search_content w (.str q) mv cfg).1 = .ok recs) :
    (fallback_search w q mv cfg).1 =
      .ok { query := q, results := recs,
            analysis := .str ("Found " ++ toString recs.length ++
              " results for your query. (Fallback search - AI analysis unavailable)"),
            model_used := .str "fallback", total_results := recs.length } := by
  unfold fallback_search
  rw [h]

theorem fallback_search_err_eq (w : World) (q : String) (mv : JValue) (cfg : Int)
    (msg : String) (h : (search_content w (.str q) mv cfg).1 = .error (.wpError msg)) :
    (fallback_search w q mv cfg).1 =
      .ok { query := q, results := [],
            analysis := .str ("Search failed: " ++ msg),
            model_used := .str "error", total_results := 0 } := by
  unfold fallback_search
  rw [h]

theorem min100_toNat_le_100 (n : Int) : (min n 100).toNat ≤ 100 :=
  Int.toNat_le_toNat (min_le_right n 100)

theorem min100_toNat_le_self (n : Int) : (min n 100).toNat ≤ n.toNat :=
  Int.toNat_le_toNat (min_le_left n 100)

theorem fallback_search_ok_bound (w : World) (q : String) (mrv : Int) (cfg : Int)
    (hcap : WpHonorsPerPage w) (r : SearchResult)
    (h : (fallback_search w q (.num mrv) cfg).1 = .ok r) :
    r.results.length ≤ 100 ∧ (0 ≤ mrv → r.results.length ≤ mrv.toNat) := by
  unfold fallback_search at h
  cases hsc : (search_content w (.str q) (.num mrv) cfg).1 with
  | ok results =>
    rw [hsc] at h
    dsimp only at h
    injection h with h2
    subst h2
    obtain ⟨n, hn, hb⟩ := search_content_ok_bound w (.str q) (.num mrv) cfg results hcap hsc
    simp only [defaultMaxResults, pyAsInt] at hn
    injection hn with hn2
    subst hn2
    exact ⟨le_trans hb (min100_toNat_le_100 mrv), fun _ =>
      le_trans hb (min100_toNat_le_self mrv)⟩
  | error e =>
    rw [hsc] at h
    cases e with
    | wpError msg =>
      dsimp only at h
      injection h with h2
      subst h2
      simp
    | aiError msg => exact absurd h (by simp)
    | keyError => exact absurd h (by simp)
    | indexError => exact absurd h (by simp)
    | typeError => exact absurd h (by simp)
    | attrError => exact absurd h (by simp)
    | jsonDecodeError => exact absurd h (by simp)

theorem try_models_ok_bound (eng : Engine) (w : World) (q : String) (mrv : Int)
    (hcap : WpHonorsPerPage w) :
    ∀ (ms : List String) (r : SearchResult),
      (try_models eng w q (.num mrv) ms).1 = .ok r →
      r.results.length ≤ 100 ∧
      (NoToolMaxResults w → 0 ≤ mrv → r.results.length ≤ mrv.toNat)
  | [], r, h => by
    simp only [try_models] at h
    have := fallback_search_ok_bound w q mrv eng.max_results hcap r h
    exact ⟨this.1, fun _ => this.2⟩
  | m :: rest, r, h => by
    unfold try_models at h
    cases hs : (search_with_model eng w q (.num mrv) m).1 with
    | error e =>
      rw [hs] at h
      dsimp only at h
      exact try_models_ok_bound eng w q mrv hcap rest r h
    | ok r2 =>
      rw [hs] at h
      dsimp only at h
      injection h with h2
      subst h2
      obtain ⟨body, hcw, hpr⟩ := search_with_model_ok_inv eng w q (.num mrv) m r2 hs
      obtain ⟨hq, hm, hcase⟩ := process_ok_cases eng w body q (.num mrv) r2 hpr
      cases hcase with
      | inl hempty => simp [hempty.1]
      | inr hrest =>
        obtain ⟨tc, sq, smr, hext, hts, hsc2, htot⟩ := hrest
        obtain ⟨n, hn, hb⟩ := search_content_ok_bound w sq smr eng.max_results r2.results hcap hsc2
        refine ⟨le_trans hb (min100_toNat_le_100 n), fun hnm hmrv0 => ?_⟩
        obtain ⟨fargs, fs, hchain, hjson, hsq, hsmr⟩ :=
          tool_search_args_ok_inv tc q (.num mrv) sq smr hts
        have hnone : jlookup (.obj fs) "maxResults" = none :=
          hnm m q body tc fargs (.obj fs) hcw hext hchain hjson
        simp only [jlookup] at hnone
        rw [hnone] at hsmr
        simp only [Option.getD_none] at hsmr
        subst hsmr
        simp only [defaultMaxResults, pyAsInt] at hn
        injection hn with hn2
        subst hn2
        exact le_trans hb (min100_toNat_le_self mrv)

theorem rate_limit_last_eq_clock (s : RLState) :
    (rate_limit s).last_request_time = (rate_limit s).clock := rfl

theorem rate_limit_clock_ge (s : RLState) : s.clock ≤ (rate_limit s).clock := by
  unfold rate_limit
  dsimp only
  split_ifs with hlt
  · linarith
  · exact le_refl _

theorem rate_limit_step (t : RLState) (d : ℚ) (hlast : t.last_request_time = t.clock)
    (hd : 0 ≤ d) :
    t.clock + min_request_interval ≤ (rate_limit { t with clock := t.clock + d }).clock := by
  unfold rate_limit
  dsimp only
  rw [hlast]
  split_ifs with hlt
  · linarith
  · have := not_lt.mp hlt
    linarith

theorem consecutive_calls_fold :
    ∀ (gaps : List ℚ) (t : RLState), t.last_request_time = t.clock →
      (∀ d ∈ gaps, 0 ≤ d) →
      t.clock + (gaps.length : ℚ) * min_request_interval ≤
        (gaps.foldl (fun u d => rate_limit { u with clock := u.clock + d }) t).clock
  | [], t, _, _ => by simp
  | d :: ds, t, hlast, hd => by
    have hstep := rate_limit_step t d hlast (hd d (by simp))
    have ih := consecutive_calls_fold ds (rate_limit { t with clock := t.clock + d })
      (rate_limit_last_eq_clock _) (fun d2 hd2 => hd d2 (by simp [hd2]))
    simp only [List.foldl_cons, List.length_cons]
    push_cast
    push_cast at ih
    linarith

theorem lookup_none_any_eq_false (fs : List (String × JValue)) (k : String)
    (h : fs.lookup k = none) : (fs.any (fun p => p.1 == k)) = false := by
  induction fs with
  | nil => rfl
  | cons a rest ih =>
    obtain ⟨ka, va⟩ := a
    simp only [List.lookup] at h
    cases hk : (k == ka) with
    | true => rw [hk] at h; exact absurd h (by simp)
    | false =>
      rw [hk] at h
      have hk2 : (ka == k) = false := by
        rw [beq_eq_false_iff_ne] at hk ⊢
        exact fun he => hk he.symm
      simp [List.any_cons, hk2, ih h]

theorem format_author_unknown_fixed (r : ContentRecord) (hu : r.author = .str "Unknown") :
    format_content_item r.toJValue = .ok r := by
  obtain ⟨id, title, excerpt, content, url, date, author, type, slug⟩ := r
  simp only at hu
  subst hu
  rfl

/-- C9: a minimum inter-request interval of 100 ms is enforced: a call
inside the interval sleeps exactly until `last_request_time +
min_request_interval`, and `N = gaps.length + 1` consecutive calls by a
single caller take at least `(N - 1) * 100 ms` of model wall-clock time,
whatever non-negative drift separates them. -/
theorem c9_rate_limit (s : RLState) (gaps : List ℚ) (hgaps : ∀ d ∈ gaps, 0 ≤ d) :
    s.clock + (gaps.length : ℚ) * min_request_interval ≤ (consecutive_calls s gaps).clock ∧
    (∀ t : RLState, t.clock - t.last_request_time < min_request_interval →
       (rate_limit t).clock = t.last_request_time + min_request_interval) := by
  constructor
  · have h0 := rate_limit_clock_ge s
    have hfold := consecutive_calls_fold gaps (rate_limit s) (rate_limit_last_eq_clock s) hgaps
    unfold consecutive_calls
    linarith
  · intro t hlt
    unfold rate_limit
    dsimp only
    rw [if_pos hlt]
    ring

theorem c9_rate_limit_witness :
    (RLState.mk 0 0).clock + ((([0, 0] : List ℚ).length : ℚ)) * min_request_interval ≤
      (consecutive_calls ⟨0, 0⟩ [0, 0]).clock :=
  (c9_rate_limit ⟨0, 0⟩ [0, 0] (by intro d hd; simp at hd; simp [hd])).1

/-- C10: the analysis-only completion request is always issued against
the configured primary model (`self.current_model` in
`_get_ai_analysis`), regardless of which cascade model produced the tool
invocation: every analysis event in any search trace names
`current_model`. -/
theorem c10_analysis_model (eng : Engine) (w : World) (q : String) (mro : Option Int) :
    (search eng w q mro).2.all (evAnalysisOk eng.current_model) = true :=
  search_trace_all eng w q mro (evAnalysisOk eng.current_model)
    (fun _ => rfl) (by simp [evAnalysisOk]) (fun _ => rfl)

/-- C7 (amended): `get_content_by_id` returns `None` on any
`RequestException` — network failure, non-2xx status, or an undecodable
body — and returns a record for a decoded JSON object; but (see the
counterexample) a decoded body that is not a JSON object raises instead
of returning `None`. -/
theorem c7_amended :
    (∀ (w : World) (i : Int) (s : String), w.wpGetById i = .error s →
       get_content_by_id w i = .ok none) ∧
    (∀ (w : World) (i : Int) (fs : List (String × JValue)), w.wpGetById i = .ok (.obj fs) →
       ∃ r, get_content_by_id w i = .ok (some r)) := by
  constructor
  · intro w i s h
    unfold get_content_by_id
    rw [h]
  · intro w i fs h
    unfold get_content_by_id
    rw [h]
    exact ⟨_, rfl⟩

theorem c7_amended_witness :
    get_content_by_id wAllDown 7 = .ok none ∧
    get_content_by_id wByIdObj 7 = .ok (some recNoAuthor) :=
  ⟨c7_amended.1 wAllDown 7 "boom" rfl, rfl⟩

/-- C7 counterexample: a decodable body that is not a JSON object (here
the number `5`) makes `get_content_by_id` raise `AttributeError`
(`.get` on a non-mapping) instead of returning `None`, refuting "returns
None rather than raising on any failure". -/
theorem c7_counterexample : get_content_by_id wByIdNum 7 = .error .attrError := rfl

/-- C8 (amended): normalization never raises on a JSON-object record and
a missing `author.name` yields "Unknown" for every shape of `author`;
but formatting twice is the identity only when the first pass produced
author "Unknown" — re-formatting a record whose author was successfully
extracted degrades the author to "Unknown" (see the counterexample). -/
theorem c8_amended :
    (∀ (item : JValue) (r : ContentRecord), format_content_item item = .ok r →
       r.author = .str "Unknown" → format_content_item r.toJValue = .ok r) ∧
    (∀ (item : JValue) (r : ContentRecord), format_content_item item = .ok r →
       author_name_missing item → r.author = .str "Unknown") ∧
    (∀ fs : List (String × JValue), ∃ r, format_content_item (.obj fs) = .ok r) := by
  refine ⟨fun item r _ hu => format_author_unknown_fixed r hu, ?_, fun fs => ⟨_, rfl⟩⟩
  intro item r h hmiss
  cases item with
  | obj fields =>
    simp only [format_content_item] at h
    injection h with h2
    subst h2
    simp only [author_name_missing] at hmiss
    cases ha : fields.lookup "author" with
    | none => simp [ha]
    | some v =>
      rw [ha] at hmiss
      cases v with
      | obj afs => simp [ha, hmiss]
      | null => simp [ha]
      | bool b => simp [ha]
      | num n => simp [ha]
      | str s => simp [ha]
      | arr xs => simp [ha]
  | null => simp [format_content_item] at h
  | bool b => simp [format_content_item] at h
  | num n => simp [format_content_item] at h
  | str s => simp [format_content_item] at h
  | arr xs => simp [format_content_item] at h

theorem c8_amended_witness :
    format_content_item recNoAuthor.toJValue = .ok recNoAuthor ∧
    recNoAuthor.author = .str "Unknown" :=
  ⟨c8_amended.1 rawItemNoAuthor recNoAuthor rfl rfl,
   c8_amended.2.1 rawItemNoAuthor recNoAuthor rfl trivial⟩

/-- C8 counterexample: `rawItem1` has `author.name = "Alice"`; one
formatting pass yields author "Alice" but feeding the formatted record
through the formatter again yields author "Unknown" (the formatted
`author` field is a string, not a mapping), so formatting twice is not
the identity. -/
theorem c8_counterexample :
    (format_content_item rawItem1).map (fun r => r.author) = .ok (.str "Alice") ∧
    ((format_content_item rawItem1).bind
        (fun r => format_content_item r.toJValue)).map (fun r => r.author) =
      .ok (.str "Unknown") ∧
    ("Alice" == "Unknown") = false := ⟨rfl, rfl, rfl⟩

/-- C6: when the first model's decoded response carries a message object
with no `tool_calls` key and direct text content, `search` returns
immediately with zero results, `total_results = 0`, the text verbatim as
the analysis, and no further request of any kind (the trace is exactly
the one tool-calling completion). -/
theorem c6_direct_response (eng : Engine) (w : World) (q : String) (mro : Option Int)
    (mfs : List (String × JValue)) (c mdl body : JValue)
    (hcw : w.completeWithTool eng.current_model q = .ok body)
    (hmsg : pyChoicesMessage body = .ok (.obj mfs))
    (hnt : mfs.lookup "tool_calls" = none)
    (hcontent : mfs.lookup "content" = some c)
    (hmodel : pyIndexStr body "model" = .ok mdl) :
    search eng w q mro =
      (.ok { query := q, results := [], analysis := c,
             model_used := mdl, total_results := 0 },
       [.toolCall eng.current_model]) := by
  have hdr : direct_response body (.obj mfs) q =
      .ok { query := q, results := [], analysis := c,
            model_used := mdl, total_results := 0 } := by
    unfold direct_response
    have hget : pyDictGet (.obj mfs) "content" (.str "No relevant content found.") = .ok c := by
      simp [pyDictGet, hcontent]
    rw [hget]
    dsimp only
    rw [hmodel]
  have hcore : process_core eng w body q (.num (mro.getD eng.max_results)) =
      (.ok { query := q, results := [], analysis := c,
             model_used := mdl, total_results := 0 }, []) := by
    unfold process_core
    rw [hmsg]
    dsimp only
    have hpc : pyContains (.obj mfs) "tool_calls" = .ok false := by
      simp only [pyContains]
      rw [lookup_none_any_eq_false mfs "tool_calls" hnt]
    rw [hpc]
    dsimp only
    rw [hdr]
  have hproc : process_ai_response eng w body q (.num (mro.getD eng.max_results)) =
      (.ok { query := q, results := [], analysis := c,
             model_used := mdl, total_results := 0 }, []) := by
    unfold process_ai_response
    rw [hcore]
  have hswm : search_with_model eng w q (.num (mro.getD eng.max_results)) eng.current_model =
      (.ok { query := q, results := [], analysis := c,
             model_used := mdl, total_results := 0 },
       [.toolCall eng.current_model]) := by
    unfold search_with_model
    rw [hcw]
    dsimp only
    rw [hproc]
  unfold search
  dsimp only
  unfold try_models
  rw [hswm]

theorem c6_direct_response_witness :
    search engDemo wDirect "q" (some 5) =
      (.ok { query := "q", results := [],
             analysis := .str "I do not need to search for that",
             model_used := .str "primary-model", total_results := 0 },
       [.toolCall "primary-model"]) :=
  c6_direct_response engDemo wDirect "q" (some 5)
    [("content", .str "I do not need to search for that")]
    (.str "I do not need to search for that") (.str "primary-model")
    (directBody "primary-model" "I do not need to search for that")
    rfl rfl rfl rfl rfl

/-- C2 (amended): once every model's tool-calling completion fails,
`search` hands the raw query to the direct WordPress search: if that
fetch succeeds the result carries exactly the fetched records with the
"fallback" sentinel, and if it raises `WordPressAPIError` the result has
zero results, the "error" sentinel, and `"Search failed: " ++` the
error text as analysis.  The never-raises part of the claim is refuted
by the counterexample (a fetched body of unexpected shape propagates
`AttributeError` out of `search`). -/
theorem c2_amended (eng : Engine) (w : World) (q : String) (mrv : Int)
    (hfail : ∀ m q2, ∃ s, w.completeWithTool m q2 = .error s) :
    (∀ recs, (search_content w (.str q) (.num mrv) eng.max_results).1 = .ok recs →
       (search eng w q (some mrv)).1 =
         .ok { query := q, results := recs,
               analysis := .str ("Found " ++ toString recs.length ++
                 " results for your query. (Fallback search - AI analysis unavailable)"),
               model_used := .str "fallback", total_results := recs.length }) ∧
    (∀ msg, (search_content w (.str q) (.num mrv) eng.max_results).1 = .error (.wpError msg) →
       (search eng w q (some mrv)).1 =
         .ok { query := q, results := [],
               analysis := .str ("Search failed: " ++ msg),
               model_used := .str "error", total_results := 0 }) := by
  have hall := try_models_allfail eng w q (.num mrv) (fun m => hfail m q)
    (eng.current_model :: eng.fallback_models)
  constructor
  · intro recs hsc
    unfold search
    simp only [Option.getD_some]
    rw [hall]
    exact fallback_search_ok_eq w q (.num mrv) eng.max_results recs hsc
  · intro msg hsc
    unfold search
    simp only [Option.getD_some]
    rw [hall]
    exact fallback_search_err_eq w q (.num mrv) eng.max_results msg hsc

theorem c2_amended_witness :
    (search engDemo wModelsDown "q" (some 5)).1 =
      .ok { query := "q", results := [rec1],
            analysis := .str "Found 1 results for your query. (Fallback search - AI analysis unavailable)",
            model_used := .str "fallback", total_results := 1 } ∧
    (search engDemo wAllDown "q" (some 5)).1 =
      .ok { query := "q", results := [],
            analysis := .str "Search failed: WordPress API request failed: boom",
            model_used := .str "error", total_results := 0 } :=
  ⟨(c2_amended engDemo wModelsDown "q" 5 (fun _ _ => ⟨"connection refused", rfl⟩)).1 [rec1] rfl,
   (c2_amended engDemo wAllDown "q" 5 (fun _ _ => ⟨"connection refused", rfl⟩)).2
     "WordPress API request failed: boom" rfl⟩

/-- C2 counterexample: with every model down and the content endpoint
returning the decodable body `[5]` (a list whose element is not an
object), `search` propagates `AttributeError` (raised by `.get` inside
`_format_content_item`, caught neither by `search_content`'s
`except` clauses nor by `_fallback_search`'s `except WordPressAPIError`),
refuting "search() never raises once configuration is valid". -/
theorem c2_counterexample :
    (search engDemo wBadShape "q" (some 5)).1 = .error .attrError := rfl

theorem try_models_cons (eng : Engine) (w : World) (q : String) (mv : JValue)
    (m : String) (rest : List String) :
    try_models eng w q mv (m :: rest) =
      match (search_with_model eng w q mv m).1 with
      | .ok r => (.ok r, (search_with_model eng w q mv m).2)
      | .error _ =>
        ((try_models eng w q mv rest).1,
         (search_with_model eng w q mv m).2 ++ (try_models eng w q mv rest).2) := rfl

/-- C3: models are tried strictly in configuration order: a raised
`AIError` (the embedding of `GatewayError`) never escapes `search`; a
transport failure abandons that model and hands control to the rest of
the cascade with only its own tool-call event added to the trace; and
when the primary transport fails while the first fallback's response
processes successfully, `search` returns that result, contacts exactly
the primary and the first fallback, and reports the response's `model`
field (the fallback's identifier when the gateway echoes it). -/
theorem c3_cascade (eng : Engine) (w : World) (q : String) (mrv : Int) :
    raisesAIError (search eng w q (some mrv)).1 = false ∧
    (∀ (m : String) (rest : List String) (s : String),
       w.completeWithTool m q = .error s →
       try_models eng w q (.num mrv) (m :: rest) =
         ((try_models eng w q (.num mrv) rest).1,
          .toolCall m :: (try_models eng w q (.num mrv) rest).2)) ∧
    (∀ (fb1 : String) (rest : List String) (body : JValue) (r : SearchResult),
       eng.fallback_models = fb1 :: rest →
       (∃ s, w.completeWithTool eng.current_model q = .error s) →
       w.completeWithTool fb1 q = .ok body →
       (process_ai_response eng w body q (.num mrv)).1 = .ok r →
       (search eng w q (some mrv)).1 = .ok r ∧
       toolCallsOf (search eng w q (some mrv)).2 = [eng.current_model, fb1] ∧
       pyIndexStr body "model" = .ok r.model_used) := by
  refine ⟨?_, ?_, ?_⟩
  · unfold search
    exact try_models_no_aiError eng w q (.num ((some mrv).getD eng.max_results)) _
  · intro m rest s hs
    rw [try_models_cons, search_with_model_fail eng w q (.num mrv) m s hs]
    dsimp only
    simp
  · intro fb1 rest body r hfb hex hok hpr
    obtain ⟨s, hs⟩ := hex
    have hswm : search_with_model eng w q (.num mrv) fb1 =
        ((process_ai_response eng w body q (.num mrv)).1,
         .toolCall fb1 :: (process_ai_response eng w body q (.num mrv)).2) := by
      unfold search_with_model
      rw [hok]
    have ht2 : try_models eng w q (.num mrv) (fb1 :: rest) =
        (.ok r, .toolCall fb1 :: (process_ai_response eng w body q (.num mrv)).2) := by
      rw [try_models_cons, hswm]
      dsimp only
      rw [hpr]
    have ht1 : try_models eng w q (.num mrv) (eng.current_model :: fb1 :: rest) =
        (.ok r, .toolCall eng.current_model :: .toolCall fb1 ::
          (process_ai_response eng w body q (.num mrv)).2) := by
      rw [try_models_cons, search_with_model_fail eng w q (.num mrv) eng.current_model s hs]
      dsimp only
      rw [ht2]
      simp
    have hsearch : search eng w q (some mrv) =
        (.ok r, .toolCall eng.current_model :: .toolCall fb1 ::
          (process_ai_response eng w body q (.num mrv)).2) := by
      unfold search
      simp only [Option.getD_some]
      rw [hfb]
      exact ht1
    have hpt : toolCallsOf (process_ai_response eng w body q (.num mrv)).2 = [] :=
      toolCallsOf_eq_nil_of_all _
        (process_trace_all eng w body q (.num mrv) evNotToolCall (fun _ => rfl) rfl)
    refine ⟨by rw [hsearch], ?_, (process_ok_cases eng w body q (.num mrv) r hpr).2.1⟩
    rw [hsearch]
    show eng.current_model :: fb1 ::
      toolCallsOf (process_ai_response eng w body q (.num mrv)).2 = _
    rw [hpt]

theorem c3_cascade_witness :
    (search engDemo wPrimaryDown "q" (some 5)).1 = .ok rC3 ∧
    toolCallsOf (search engDemo wPrimaryDown "q" (some 5)).2 =
      ["primary-model", "fallback-a"] ∧
    pyIndexStr (directBody "fallback-a" "direct answer") "model" = .ok rC3.model_used :=
  (c3_cascade engDemo wPrimaryDown "q" 5).2.2 "fallback-a" ["fallback-b"]
    (directBody "fallback-a" "direct answer") rC3 rfl ⟨"connection refused", rfl⟩ rfl rfl

/-- C4 (amended): when the tool call's `arguments` decodes to a JSON
object, `query` and `maxResults` fall back to the original user query
and the caller's `max_results` exactly when absent (`args.get`
defaults); but a malformed JSON-encoded arguments string raises and
abandons the whole model attempt (see the counterexample), and a
present-but-invalid `query` value is used as-is rather than falling
back. -/
theorem c4_amended (tc : JValue) (q : String) (mv fargs : JValue)
    (fs : List (String × JValue))
    (hx : (pyIndexStr tc "function").bind (fun f => pyIndexStr f "arguments") = .ok fargs)
    (hj : json_loads fargs = .ok (.obj fs)) :
    tool_search_args tc q mv =
      .ok ((fs.lookup "query").getD (.str q), (fs.lookup "maxResults").getD mv) := by
  unfold tool_search_args
  rw [hx]
  dsimp only
  rw [hj]
  rfl

theorem c4_amended_witness :
    tool_search_args toolCallEmptyArgs "orig" (.num 7) = .ok (.str "orig", .num 7) :=
  c4_amended toolCallEmptyArgs "orig" (.num 7) (.str "\x7b\x7d") [] rfl rfl

/-- C4 counterexample: a tool invocation naming `search_wordpress` whose
`arguments` string is not JSON (`"oops"`) raises
`json.JSONDecodeError`, re-raised as `AIError` — the model attempt is
abandoned and the cascade walks through every configured model — rather
than any argument being mapped to a default. -/
theorem c4_counterexample :
    (process_ai_response engDemo wBadArgs (toolBody "primary-model" "oops") "q" (.num 5)).1 =
      .error (.aiError "Failed to process AI response") ∧
    toolCallsOf (search engDemo wBadArgs "q" (some 5)).2 =
      ["primary-model", "fallback-a", "fallback-b"] := ⟨rfl, rfl⟩

/-- C5 (amended): when the tool invocation and the content fetch
succeed, a transport failure of the analysis-only completion does not
discard the fetched records: the result still carries them, with the
fixed degraded message as the analysis.  A successfully transported
analysis response of unexpected shape, however, raises and abandons the
model attempt, discarding the records (see the counterexample). -/
theorem c5_amended (eng : Engine) (w : World) (m q : String) (mv : JValue)
    (recs : List ContentRecord) (fr : String)
    (hA : ∀ mm c, ∃ s, w.completeAnalysis mm c = .error s)
    (hS : (search_content w (.str q) mv eng.max_results).1 = .ok recs)
    (hF : format_results_for_ai recs = .ok fr) :
    (process_ai_response eng w (toolBody m "\x7b\x7d") q mv).1 =
      .ok { query := q, results := recs,
            analysis := .str "Unable to analyze results at this time.",
            model_used := .str m, total_results := recs.length } := by
  have hok : (process_core eng w (toolBody m "\x7b\x7d") q mv).1 =
      .ok { query := q, results := recs,
            analysis := .str "Unable to analyze results at this time.",
            model_used := .str m, total_results := recs.length } := by
    have hcore : process_core eng w (toolBody m "\x7b\x7d") q mv =
        tool_path eng w (toolBody m "\x7b\x7d") toolCallEmptyArgs q mv := rfl
    rw [hcore]
    unfold tool_path
    have hts : tool_search_args toolCallEmptyArgs q mv = .ok (.str q, mv) := rfl
    rw [hts]
    dsimp only
    rw [hS]
    dsimp only
    rw [hF]
    dsimp only
    obtain ⟨s, hse⟩ := hA eng.current_model (analysis_user_content q fr)
    have hga : (get_ai_analysis eng w q fr).1 =
        .ok (.str "Unable to analyze results at this time.") := by
      unfold get_ai_analysis
      rw [hse]
    rw [hga]
    dsimp only
    have hm : pyIndexStr (toolBody m "\x7b\x7d") "model" = .ok (.str m) := rfl
    rw [hm]
  exact (process_ai_response_ok_iff eng w (toolBody m "\x7b\x7d") q mv _).mpr hok

theorem c5_amended_witness :
    (process_ai_response engDemo wAnalysisOutage
        (toolBody "primary-model" "\x7b\x7d") "q" (.num 5)).1 =
      .ok { query := "q", results := [rec1],
            analysis := .str "Unable to analyze results at this time.",
            model_used := .str "primary-model", total_results := 1 } :=
  c5_amended engDemo wAnalysisOutage "primary-model" "q" (.num 5) [rec1] frWit
    (fun _ _ => ⟨"outage", rfl⟩) rfl rfl

/-- C5 counterexample: with a successful tool invocation and a fetched
record (witnessed by the `wpFetch` event in the trace), an analysis
response that decodes but lacks `choices` raises `KeyError`, re-raised
as `AIError`: the model attempt fails and the fetched records are
discarded, so an analysis failure does cause cascade continuation. -/
theorem c5_counterexample :
    process_ai_response engDemo wBadAnalysis
        (toolBody "primary-model" "\x7b\x7d") "q" (.num 5) =
      (.error (.aiError "Failed to process AI response"),
       [.wpFetch 5, .analysisCall "primary-model"]) := rfl

theorem wWitC1_hcap : WpHonorsPerPage wWitC1 := by
  intro p body items hb hi
  simp only [wWitC1] at hb
  injection hb with hb2
  subst hb2
  simp only [pyIterate] at hi
  injection hi with hi2
  subst hi2
  simp [List.length_take]

theorem wWitC1_hnm : NoToolMaxResults wWitC1 := by
  intro m q body tc fargs args h1 h2 h3 h4
  simp only [wWitC1] at h1
  injection h1 with h1b
  subst h1b
  have h2c : extracted_tool_call (toolBody "primary-model" "\x7b\x7d") =
      some toolCallEmptyArgs := rfl
  rw [h2c] at h2
  injection h2 with h2b
  subst h2b
  have h3c : (pyIndexStr toolCallEmptyArgs "function").bind
      (fun f => pyIndexStr f "arguments") = .ok (.str "\x7b\x7d") := rfl
  rw [h3c] at h3
  injection h3 with h3b
  subst h3b
  have h4c : json_loads (.str "\x7b\x7d") = .ok (.obj []) := rfl
  rw [h4c] at h4
  injection h4 with h4b
  subst h4b
  rfl

theorem wToolMaxCap_hcap : WpHonorsPerPage wToolMaxCap := by
  intro p body items hb hi
  simp only [wToolMaxCap] at hb
  injection hb with hb2
  subst hb2
  simp only [pyIterate] at hi
  injection hi with hi2
  subst hi2
  simp [List.length_take]

/-- C1 (amended): under the content endpoint's `per_page` contract,
every successful `search` returns at most 100 records — including when
the model's tool invocation supplies its own `maxResults`; and it
returns at most the caller's requested `maxResults` provided no tool
invocation supplies its own `maxResults` argument — a tool-supplied
value replaces the requested bound, as the counterexample shows. -/
theorem c1_amended (eng : Engine) (w : World) (q : String) (mrv : Int)
    (hcap : WpHonorsPerPage w) :
    ∀ r, (search eng w q (some mrv)).1 = .ok r →
      r.results.length ≤ 100 ∧
      (NoToolMaxResults w → 0 < mrv → r.results.length ≤ mrv.toNat) := by
  intro r h
  unfold search at h
  simp only [Option.getD_some] at h
  have hb := try_models_ok_bound eng w q mrv hcap
    (eng.current_model :: eng.fallback_models) r h
  exact ⟨hb.1, fun hnm hpos => hb.2 hnm (le_of_lt hpos)⟩

theorem c1_amended_witness :
    ((search engDemo wWitC1 "hello" (some 5)).1.map (fun r => r.results.length)) = .ok 2 ∧
    (2 : Nat) ≤ 100 ∧ (0 : Int) < 5 ∧ (2 : Nat) ≤ (5 : Int).toNat ∧
    ((search engDemo wToolMaxCap "q" (some 1)).1.map (fun r => r.results.length)) = .ok 2 ∧
    (2 : Nat) ≤ 100 := by
  refine ⟨rfl, ?_, by norm_num, ?_, rfl, ?_⟩
  · exact (c1_amended engDemo wWitC1 "hello" 5 wWitC1_hcap _ rfl).1
  · exact (c1_amended engDemo wWitC1 "hello" 5 wWitC1_hcap _ rfl).2 wWitC1_hnm (by norm_num)
  · exact (c1_amended engDemo wToolMaxCap "q" 1 wToolMaxCap_hcap _ rfl).1

/-- C1 counterexample: the caller requests `maxResults = 1` but the
model's tool invocation supplies `maxResults = 2`; `_process_ai_response`
passes the tool-supplied value to the fetch, so the returned result
carries 2 records, exceeding the requested bound. -/
theorem c1_counterexample :
    ((search engDemo wToolMax "q" (some 1)).1.map (fun r => r.results.length)) = .ok 2 ∧
    decide (2 ≤ 1) = false := ⟨rfl, rfl⟩

end WPAI
